import Mathlib

/-!
Shallow embedding of the email-OTP verification service core
(`models.py`, `database.py`, `email_utils.py`, `main.py`).

The two persisted tables (`users`, `otp_verifications`) are modelled as
lists held in a `DB` record; the SQLAlchemy autoincrement primary key for
OTP rows is modelled by the `nextOtpId` counter.  Time is modelled in
seconds as `Nat`; every place where the source calls
`datetime.utcnow()` takes an explicit `now` argument instead.
`expiry_minutes` (default 10 in the source) is passed explicitly and its
contribution to `expires_at` is `expiry_minutes * 60` seconds.

Randomness (`random.choices` in `generate_otp`) is modelled by an
explicit per-position index stream `pick : Nat → Nat`; SMTP delivery in
`send_otp_email` is modelled by two booleans: whether the SMTP
credentials are configured and whether the SMTP transaction succeeds.
-/

/-- Row of the `users` table (`models.py`, class `User`). -/
structure User where
  email : String
  is_verified : Bool
  createdAt : Nat
deriving DecidableEq, Repr

/-- Row of the `otp_verifications` table (`models.py`, class `OTPVerification`). -/
structure OTPRecord where
  id : Nat
  email : String
  otp : String
  expiresAt : Nat
  verified : Bool
  createdAt : Nat
deriving DecidableEq, Repr

/-- The persisted state: both tables plus the autoincrement counter. -/
structure DB where
  users : List User
  otps : List OTPRecord
  nextOtpId : Nat
deriving DecidableEq, Repr

/-- The filter used both by the delete in `store_otp` and by the query in
`verify_otp`: `OTPVerification.email == email, OTPVerification.verified == False`. -/
def activeFilter (email : String) (r : OTPRecord) : Bool :=
  r.email == email && r.verified == false

/-- `order_by(OTPVerification.created_at.desc()).first()`: the first
record (in insertion order) whose `created_at` is maximal. -/
def pickLatest : List OTPRecord → Option OTPRecord
  | [] => none
  | r :: rs =>
    match pickLatest rs with
    | none => some r
    | some best => if best.createdAt > r.createdAt then some best else some r

/-- `database.get_user_or_create`: find the user row by email, or insert
a fresh row with `is_verified=False`. -/
def get_user_or_create (db : DB) (email : String) (now : Nat) : DB × User :=
  match db.users.find? (fun u => u.email == email) with
  | some u => (db, u)
  | none =>
    let u : User := { email := email, is_verified := false, createdAt := now }
    ({ db with users := db.users ++ [u] }, u)

/-- `database.store_otp`: delete every unverified OTP row for this email,
then insert a fresh unverified row expiring `expiry_minutes` from now. -/
def store_otp (db : DB) (email otp_code : String) (now expiry_minutes : Nat) :
    DB × OTPRecord :=
  let kept := db.otps.filter (fun r => !(activeFilter email r))
  let expires_at := now + expiry_minutes * 60
  let otp_record : OTPRecord :=
    { id := db.nextOtpId, email := email, otp := otp_code,
      expiresAt := expires_at, verified := false, createdAt := now }
  ({ db with otps := kept ++ [otp_record], nextOtpId := db.nextOtpId + 1 },
   otp_record)

/-- ORM object mutation `otp_record.verified = v` followed by commit:
the row with the given primary key gets its `verified` column set. -/
def set_otp_verified (db : DB) (rid : Nat) (v : Bool) : DB :=
  { db with otps :=
      db.otps.map (fun r => if r.id == rid then { r with verified := v } else r) }

/-- ORM object mutation `user.is_verified = True` followed by commit. -/
def set_user_verified (db : DB) (email : String) : DB :=
  { db with users :=
      db.users.map (fun u =>
        if u.email == email then { u with is_verified := true } else u) }

/-- `database.verify_otp`: returns the updated state together with the
`(success, message)` pair returned by the source. -/
def verify_otp (db : DB) (email otp_code : String) (now : Nat) :
    DB × Bool × String :=
  match pickLatest (db.otps.filter (activeFilter email)) with
  | none =>
    (db, false, "No active OTP found for this email. Please request a new OTP.")
  | some otp_record =>
    if now > otp_record.expiresAt then
      (set_otp_verified db otp_record.id false, false,
       "OTP has expired. Please request a new OTP.")
    else if otp_record.otp != otp_code then
      (db, false, "Invalid OTP. Please check and try again.")
    else
      let db1 := set_otp_verified db otp_record.id true
      let db2 := (get_user_or_create db1 email now).1
      let db3 := set_user_verified db2 email
      (db3, true, "Email verified successfully!")

/-- `database.is_user_verified`. -/
def is_user_verified (db : DB) (email : String) : Bool :=
  match db.users.find? (fun u => u.email == email) with
  | some u => u.is_verified
  | none => false

/-- The four outcome kinds of §4.2 of the design. -/
inductive VerificationOutcome where
  | Accepted
  | NoActiveCode
  | Expired
  | Mismatch
deriving DecidableEq, Repr

/-- The boundary mapping from the `(success, message)` pair of `verify_otp`
to the outcome kind (`main.py` maps `success=False` to a client error whose
detail is the message). -/
def outcomeOf (res : Bool × String) : VerificationOutcome :=
  if res.1 then VerificationOutcome.Accepted
  else if res.2 == "No active OTP found for this email. Please request a new OTP."
    then VerificationOutcome.NoActiveCode
  else if res.2 == "OTP has expired. Please request a new OTP."
    then VerificationOutcome.Expired
  else VerificationOutcome.Mismatch

/-- `string.digits`. -/
def digitAlphabet : List Char := "0123456789".toList

/-- `email_utils.generate_otp`: `random.choices(string.digits, k=length)`,
with the random source modelled as the index stream `pick` (reduced mod
the alphabet size, as `choices` draws an index into the population). -/
def generate_otp (pick : Nat → Nat) (length : Nat) : String :=
  String.mk ((List.range length).map
    (fun i => digitAlphabet.getD (pick i % digitAlphabet.length) '0'))

/-- `email_utils.send_otp_email`: stores the OTP first, then attempts SMTP
delivery; returns `False` when credentials are missing or the SMTP
transaction raises, without undoing the store. -/
def send_otp_email (db : DB) (recipient_email otp_code : String) (now : Nat)
    (credentials_ok smtp_ok : Bool) : DB × Bool :=
  let stored := store_otp db recipient_email otp_code now 10
  if !credentials_ok then (stored.1, false)
  else (stored.1, smtp_ok)

/-- The `/send-otp` endpoint body (`main.send_otp`): normalizes the email
(`lower().strip()`), ensures the user row exists, then calls
`send_otp_email`; a `False` result becomes an HTTP 500 error. -/
def send_otp (db : DB) (email otp_code : String) (now : Nat)
    (credentials_ok smtp_ok : Bool) : DB × Bool :=
  let e := email.toLower.trim
  let db1 := (get_user_or_create db e now).1
  send_otp_email db1 e otp_code now credentials_ok smtp_ok

/-- One logical core operation, for stating trace properties. -/
inductive Op where
  | issue (email otp_code : String) (now expiry_minutes : Nat)
  | verify (email otp_code : String) (now : Nat)
deriving DecidableEq, Repr

/-- State transition of a single operation. -/
def applyOp (db : DB) (op : Op) : DB :=
  match op with
  | Op.issue e c now m => (store_otp db e c now m).1
  | Op.verify e c now => (verify_otp db e c now).1

/-- The empty initial database. -/
def db0 : DB := { users := [], otps := [], nextOtpId := 0 }

/-! Helper lemmas about the embedded operations. -/

theorem pickLatest_mem {l : List OTPRecord} {r : OTPRecord}
    (h : pickLatest l = some r) : r ∈ l := by
  induction l with
  | nil => simp [pickLatest] at h
  | cons a t ih =>
    simp only [pickLatest] at h
    cases ht : pickLatest t with
    | none =>
      rw [ht] at h
      simp only [Option.some.injEq] at h
      subst h
      exact List.mem_cons_self a t
    | some best =>
      rw [ht] at h
      by_cases hgt : best.createdAt > a.createdAt
      · simp only [if_pos hgt, Option.some.injEq] at h
        subst h
        exact List.mem_cons_of_mem a (ih ht)
      · simp only [if_neg hgt, Option.some.injEq] at h
        subst h
        exact List.mem_cons_self a t

theorem pickLatest_eq_none {l : List OTPRecord}
    (h : pickLatest l = none) : l = [] := by
  cases l with
  | nil => rfl
  | cons a t =>
    simp only [pickLatest] at h
    cases ht : pickLatest t with
    | none => rw [ht] at h; simp at h
    | some best =>
      rw [ht] at h
      by_cases hgt : best.createdAt > a.createdAt <;> simp [hgt] at h

theorem pickLatest_max {l : List OTPRecord} {r : OTPRecord}
    (h : pickLatest l = some r) :
    ∀ x ∈ l, x.createdAt ≤ r.createdAt := by
  induction l generalizing r with
  | nil => simp [pickLatest] at h
  | cons a t ih =>
    simp only [pickLatest] at h
    intro x hx
    cases ht : pickLatest t with
    | none =>
      rw [ht] at h
      simp only [Option.some.injEq] at h
      subst h
      have := pickLatest_eq_none ht
      subst this
      rcases List.mem_cons.mp hx with hx | hx
      · subst hx; exact le_refl _
      · simp at hx
    | some best =>
      rw [ht] at h
      by_cases hgt : best.createdAt > a.createdAt
      · simp only [if_pos hgt, Option.some.injEq] at h
        subst h
        rcases List.mem_cons.mp hx with hx | hx
        · subst hx; exact le_of_lt hgt
        · exact ih ht x hx
      · simp only [if_neg hgt, Option.some.injEq] at h
        subst h
        rcases List.mem_cons.mp hx with hx | hx
        · subst hx; exact le_refl _
        · exact le_trans (ih ht x hx) (le_of_not_lt hgt)

theorem filter_not_filter {α : Type} (p : α → Bool) (l : List α) :
    (l.filter (fun a => !(p a))).filter p = [] := by
  induction l with
  | nil => rfl
  | cons a t ih =>
    by_cases h : p a = true <;> simp [List.filter_cons, h, ih]

theorem store_otp_active (db : DB) (e c : String) (now m : Nat) :
    ((store_otp db e c now m).1.otps.filter (activeFilter e))
      = [(store_otp db e c now m).2] := by
  simp only [store_otp, List.filter_append, filter_not_filter]
  simp [activeFilter]

theorem store_otp_users (db : DB) (e c : String) (now m : Nat) :
    (store_otp db e c now m).1.users = db.users := rfl

theorem set_otp_verified_users (db : DB) (rid : Nat) (v : Bool) :
    (set_otp_verified db rid v).users = db.users := rfl

theorem set_otp_verified_otps (db : DB) (rid : Nat) (v : Bool) :
    (set_otp_verified db rid v).otps =
      db.otps.map (fun r => if r.id == rid then { r with verified := v } else r) :=
  rfl

theorem set_user_verified_otps (db : DB) (e : String) :
    (set_user_verified db e).otps = db.otps := rfl

theorem guoc_otps (db : DB) (e : String) (now : Nat) :
    (get_user_or_create db e now).1.otps = db.otps := by
  unfold get_user_or_create
  cases h : db.users.find? (fun u => u.email == e) <;> simp [h]

theorem is_user_verified_guoc (db : DB) (e e' : String) (now : Nat) :
    is_user_verified (get_user_or_create db e' now).1 e = is_user_verified db e := by
  unfold is_user_verified get_user_or_create
  cases h : db.users.find? (fun u => u.email == e') with
  | some u => simp [h]
  | none =>
    simp only [h]
    rw [List.find?_append]
    cases h2 : db.users.find? (fun u => u.email == e) with
    | some u => simp [h2]
    | none =>
      simp only [h2, Option.none_or]
      cases hbe : ((e' : String) == e) <;>
        simp [List.find?_cons, List.find?_nil, hbe]

theorem find?_email_map_set (l : List User) (e e' : String) :
    (l.map (fun u =>
        if u.email == e' then { u with is_verified := true } else u)).find?
        (fun u => u.email == e)
      = Option.map
          (fun u => if u.email == e' then { u with is_verified := true } else u)
          (l.find? (fun u => u.email == e)) := by
  rw [List.find?_map]
  have hpf : ((fun u : User => u.email == e) ∘
      (fun u => if u.email == e' then { u with is_verified := true } else u))
      = fun u : User => u.email == e := by
    funext u
    by_cases h : (u.email == e') = true <;> simp [Function.comp, h]
  rw [hpf]

theorem is_user_verified_set_other (db : DB) {e e' : String} (hne : e ≠ e') :
    is_user_verified (set_user_verified db e') e = is_user_verified db e := by
  unfold is_user_verified set_user_verified
  simp only [find?_email_map_set]
  cases h2 : db.users.find? (fun u => u.email == e) with
  | none => simp
  | some u =>
    have hu : u.email = e := by
      have := List.find?_some h2
      exact eq_of_beq this
    by_cases h3 : (u.email == e') = true
    · exact absurd (hu ▸ eq_of_beq h3) hne
    · have h4 : u.email ≠ e' := fun hh => h3 (by simp [hh])
      simp [h4]

theorem is_user_verified_set_guoc_self (db : DB) (e : String) (now : Nat) :
    is_user_verified (set_user_verified (get_user_or_create db e now).1 e) e
      = true := by
  unfold is_user_verified set_user_verified get_user_or_create
  cases h : db.users.find? (fun u => u.email == e) with
  | some u =>
    have hu := List.find?_some h
    simp only [h]
    rw [find?_email_map_set, h]
    simp [eq_of_beq hu]
  | none =>
    simp only [h]
    rw [find?_email_map_set, List.find?_append, h]
    simp [List.find?_cons, List.find?_nil]

theorem outcomeOf_false_ne_accepted (s : String) :
    outcomeOf (false, s) ≠ VerificationOutcome.Accepted := by
  unfold outcomeOf
  simp only [Bool.false_eq_true, if_false]
  split
  · simp
  · split <;> simp

theorem outcomeOf_accepted {res : Bool × String}
    (h : outcomeOf res = VerificationOutcome.Accepted) : res.1 = true := by
  obtain ⟨b, s⟩ := res
  cases b with
  | false => exact absurd h (outcomeOf_false_ne_accepted s)
  | true => rfl

theorem outcomeOf_true (s : String) :
    outcomeOf (true, s) = VerificationOutcome.Accepted := rfl

theorem is_user_verified_congr {db1 db2 : DB} (h : db1.users = db2.users)
    (e : String) : is_user_verified db1 e = is_user_verified db2 e := by
  unfold is_user_verified
  rw [h]

theorem verify_otp_none {db : DB} {e c : String} {now : Nat}
    (hp : pickLatest (db.otps.filter (activeFilter e)) = none) :
    verify_otp db e c now =
      (db, false,
       "No active OTP found for this email. Please request a new OTP.") := by
  unfold verify_otp
  rw [hp]

theorem verify_otp_expired {db : DB} {e c : String} {now : Nat} {r : OTPRecord}
    (hp : pickLatest (db.otps.filter (activeFilter e)) = some r)
    (hexp : now > r.expiresAt) :
    verify_otp db e c now =
      (set_otp_verified db r.id false, false,
       "OTP has expired. Please request a new OTP.") := by
  unfold verify_otp
  rw [hp]
  simp [hexp]

theorem verify_otp_mismatch {db : DB} {e c : String} {now : Nat} {r : OTPRecord}
    (hp : pickLatest (db.otps.filter (activeFilter e)) = some r)
    (hexp : ¬ now > r.expiresAt) (hne : r.otp ≠ c) :
    verify_otp db e c now =
      (db, false, "Invalid OTP. Please check and try again.") := by
  unfold verify_otp
  rw [hp]
  simp [hexp, hne]

theorem verify_otp_accepted_eq {db : DB} {e c : String} {now : Nat}
    {r : OTPRecord}
    (hp : pickLatest (db.otps.filter (activeFilter e)) = some r)
    (hexp : ¬ now > r.expiresAt) (heq : r.otp = c) :
    verify_otp db e c now =
      (set_user_verified
        (get_user_or_create (set_otp_verified db r.id true) e now).1 e,
       true, "Email verified successfully!") := by
  unfold verify_otp
  rw [hp]
  simp [hexp, heq]

theorem verify_otp_accepted_inv {db : DB} {e c : String} {now : Nat}
    (h : (verify_otp db e c now).2.1 = true) :
    ∃ r, pickLatest (db.otps.filter (activeFilter e)) = some r ∧
      ¬ now > r.expiresAt ∧ r.otp = c := by
  cases hp : pickLatest (db.otps.filter (activeFilter e)) with
  | none => rw [verify_otp_none hp] at h; simp at h
  | some r =>
    by_cases hexp : now > r.expiresAt
    · rw [verify_otp_expired hp hexp] at h; simp at h
    · by_cases heq : r.otp = c
      · exact ⟨r, rfl, hexp, heq⟩
      · rw [verify_otp_mismatch hp hexp heq] at h; simp at h

theorem verify_otp_users_of_not_accepted {db : DB} {e c : String} {now : Nat}
    (h : (verify_otp db e c now).2.1 = false) :
    (verify_otp db e c now).1.users = db.users := by
  cases hp : pickLatest (db.otps.filter (activeFilter e)) with
  | none => rw [verify_otp_none hp]
  | some r =>
    by_cases hexp : now > r.expiresAt
    · rw [verify_otp_expired hp hexp]; rfl
    · by_cases heq : r.otp = c
      · rw [verify_otp_accepted_eq hp hexp heq] at h; simp at h
      · rw [verify_otp_mismatch hp hexp heq]

theorem verify_otp_verified_self {db : DB} {e c : String} {now : Nat}
    {r : OTPRecord}
    (hp : pickLatest (db.otps.filter (activeFilter e)) = some r)
    (hexp : ¬ now > r.expiresAt) (heq : r.otp = c) :
    is_user_verified (verify_otp db e c now).1 e = true := by
  rw [verify_otp_accepted_eq hp hexp heq]
  exact is_user_verified_set_guoc_self _ e now

theorem verify_otp_verified_other {db : DB} {e' c : String} {now : Nat}
    {e : String} (hne : e ≠ e') :
    is_user_verified (verify_otp db e' c now).1 e = is_user_verified db e := by
  cases hp : pickLatest (db.otps.filter (activeFilter e')) with
  | none => rw [verify_otp_none hp]
  | some r =>
    by_cases hexp : now > r.expiresAt
    · rw [verify_otp_expired hp hexp]
      exact is_user_verified_congr rfl e
    · by_cases heq : r.otp = c
      · rw [verify_otp_accepted_eq hp hexp heq]
        rw [is_user_verified_set_other _ hne]
        rw [is_user_verified_guoc]
        exact is_user_verified_congr rfl e
      · rw [verify_otp_mismatch hp hexp heq]

theorem mem_of_length_le_one {α : Type} {l : List α} (h : l.length ≤ 1)
    {a b : α} (ha : a ∈ l) (hb : b ∈ l) : a = b := by
  cases l with
  | nil => cases ha
  | cons x t =>
    cases t with
    | nil => simp_all
    | cons y u => simp [List.length_cons] at h

theorem verify_otp_accepted_otps {db : DB} {e c : String} {now : Nat}
    {r : OTPRecord}
    (hp : pickLatest (db.otps.filter (activeFilter e)) = some r)
    (hexp : ¬ now > r.expiresAt) (heq : r.otp = c) :
    (verify_otp db e c now).1.otps =
      db.otps.map
        (fun x => if x.id == r.id then { x with verified := true } else x) := by
  rw [verify_otp_accepted_eq hp hexp heq]
  show (set_user_verified _ _).otps = _
  rw [set_user_verified_otps, guoc_otps, set_otp_verified_otps]

theorem verify_otp_otps_length (db : DB) (e s : String) (now : Nat) :
    (verify_otp db e s now).1.otps.length = db.otps.length := by
  cases hp : pickLatest (db.otps.filter (activeFilter e)) with
  | none => rw [verify_otp_none hp]
  | some r =>
    by_cases hexp : now > r.expiresAt
    · rw [verify_otp_expired hp hexp]
      show (set_otp_verified _ _ _).otps.length = _
      rw [set_otp_verified_otps, List.length_map]
    · by_cases heq : r.otp = s
      · rw [verify_otp_accepted_otps hp hexp heq, List.length_map]
      · rw [verify_otp_mismatch hp hexp heq]

/-! Claim theorems. -/

/-- C6: for every prior state of the ledger, immediately after
`store_otp` (the issuance effect) completes, the set of unconsumed OTP
records for the email has size exactly 1, and the single survivor is the
freshly inserted record. -/
theorem C6_single_active_after_issue (db : DB) (e c : String) (now m : Nat) :
    ((store_otp db e c now m).1.otps.filter (activeFilter e)).length = 1 ∧
    (store_otp db e c now m).1.otps.filter (activeFilter e)
      = [(store_otp db e c now m).2] := by
  rw [store_otp_active]
  exact ⟨rfl, rfl⟩

/-- C4 counterexample: the claim says `verify` at any time `≥ t + TTL`
returns `Expired` and never `Accepted`; but the code compares with strict
`>`, so a code stored at time 0 with a 10-minute TTL is still accepted at
time exactly 600 = t + TTL. -/
theorem C4_counterexample :
    outcomeOf (verify_otp (store_otp db0 "a@x.com" "123456" 0 10).1
        "a@x.com" "123456" 600).2 = VerificationOutcome.Accepted := by
  decide

/-- C4 amended: for a code issued at time `t` with TTL `m * 60` seconds,
`verify` invoked at any time strictly greater than `t + m * 60` returns
`Expired`, for every submitted code including the correct one. -/
theorem C4_strict_expiry (db : DB) (e c s : String) (t m now : Nat)
    (h : now > t + m * 60) :
    outcomeOf (verify_otp (store_otp db e c t m).1 e s now).2 =
      VerificationOutcome.Expired := by
  have hp : pickLatest
      ((store_otp db e c t m).1.otps.filter (activeFilter e))
      = some (store_otp db e c t m).2 := by
    rw [store_otp_active]; rfl
  have hexp : now > (store_otp db e c t m).2.expiresAt := h
  rw [verify_otp_expired hp hexp]
  rfl

/-- C4 witness: the amended expiry theorem evaluated at a concrete input
one second past the deadline. -/
theorem C4_strict_expiry_witness :
    601 > 0 + 10 * 60 ∧
    outcomeOf (verify_otp (store_otp db0 "a@x.com" "123456" 0 10).1
        "a@x.com" "123456" 601).2 = VerificationOutcome.Expired :=
  ⟨by decide, C4_strict_expiry db0 "a@x.com" "123456" "123456" 0 10 601 (by decide)⟩

/-- C3 counterexample: after two issuances with distinct codes, verifying
with the superseded code `c1` while the new code is still valid returns
`Mismatch`, not the `NoActiveCode` the claim states. -/
theorem C3_counterexample :
    outcomeOf (verify_otp
        (store_otp (store_otp db0 "a@x.com" "111111" 0 10).1
          "a@x.com" "222222" 0 10).1
        "a@x.com" "111111" 1).2 = VerificationOutcome.Mismatch ∧
    VerificationOutcome.Mismatch ≠ VerificationOutcome.NoActiveCode := by
  decide

/-- C3 amended: a superseded code is indeed unusable — but before the new
expiry of the new code its rejection outcome kind is `Mismatch` (the new record is
selected and its code differs), not `NoActiveCode`. -/
theorem C3_superseded_mismatch (db : DB) (e c1 c2 : String)
    (t1 m1 t2 m2 now : Nat) (hne : c1 ≠ c2) (hnow : ¬ now > t2 + m2 * 60) :
    outcomeOf (verify_otp (store_otp (store_otp db e c1 t1 m1).1 e c2 t2 m2).1
        e c1 now).2 = VerificationOutcome.Mismatch := by
  have hp : pickLatest
      ((store_otp (store_otp db e c1 t1 m1).1 e c2 t2 m2).1.otps.filter
        (activeFilter e))
      = some (store_otp (store_otp db e c1 t1 m1).1 e c2 t2 m2).2 := by
    rw [store_otp_active]; rfl
  have hexp : ¬ now >
      (store_otp (store_otp db e c1 t1 m1).1 e c2 t2 m2).2.expiresAt := hnow
  have hne2 : (store_otp (store_otp db e c1 t1 m1).1 e c2 t2 m2).2.otp ≠ c1 :=
    Ne.symm hne
  rw [verify_otp_mismatch hp hexp hne2]
  rfl

/-- C3 witness: the amended supersession theorem at concrete inputs. -/
theorem C3_superseded_mismatch_witness :
    ("111111" : String) ≠ "222222" ∧ ¬ (1 : Nat) > 0 + 10 * 60 ∧
    outcomeOf (verify_otp
        (store_otp (store_otp db0 "a@x.com" "111111" 0 10).1
          "a@x.com" "222222" 0 10).1
        "a@x.com" "111111" 1).2 = VerificationOutcome.Mismatch :=
  ⟨by decide, by decide,
    C3_superseded_mismatch db0 "a@x.com" "111111" "222222" 0 10 0 10 1
      (by decide) (by decide)⟩

/-- C2 counterexample: the claim says issuance marks existing unconsumed
records consumed and never physically deletes them; but `store_otp`
issues a SQL `delete()`: the prior unconsumed record for the email is
gone from storage entirely after a second issuance (present neither as a
consumed nor as an unconsumed row). -/
theorem C2_counterexample :
    (store_otp db0 "a@x.com" "111111" 0 10).2
        ∈ (store_otp db0 "a@x.com" "111111" 0 10).1.otps ∧
    (store_otp db0 "a@x.com" "111111" 0 10).2
        ∉ (store_otp (store_otp db0 "a@x.com" "111111" 0 10).1
            "a@x.com" "222222" 0 10).1.otps := by
  decide

/-- C2 amended: issuance physically deletes every unconsumed record for
the email (instead of marking it consumed); records that are already
consumed, and records of other emails, are retained; and verification
never deletes records (the record count is invariant under `verify_otp`).
The hypothesis is the autoincrement invariant: every stored id is below
the next-id counter. -/
theorem C2_delete_on_issue (db : DB) (e c : String) (now m : Nat)
    (hWF : ∀ r ∈ db.otps, r.id < db.nextOtpId) :
    (∀ r ∈ db.otps, r.verified = true →
        r ∈ (store_otp db e c now m).1.otps) ∧
    (∀ r ∈ db.otps, r.email ≠ e → r ∈ (store_otp db e c now m).1.otps) ∧
    (∀ r ∈ db.otps, activeFilter e r = true →
        r ∉ (store_otp db e c now m).1.otps) ∧
    (∀ (e' s : String) (now' : Nat),
        (verify_otp db e' s now').1.otps.length = db.otps.length) := by
  refine ⟨?_, ?_, ?_, ?_⟩
  · intro r hr hv
    show r ∈ db.otps.filter (fun x => !(activeFilter e x)) ++ [_]
    apply List.mem_append_left
    exact List.mem_filter.mpr ⟨hr, by simp [activeFilter, hv]⟩
  · intro r hr hne
    show r ∈ db.otps.filter (fun x => !(activeFilter e x)) ++ [_]
    apply List.mem_append_left
    exact List.mem_filter.mpr ⟨hr, by simp [activeFilter, hne]⟩
  · intro r hr hact hmem
    rcases List.mem_append.mp hmem with hmem | hmem
    · have := (List.mem_filter.mp hmem).2
      rw [hact] at this
      simp at this
    · have hid : r.id < db.nextOtpId := hWF r hr
      have : r = (store_otp db e c now m).2 := by simpa using hmem
      rw [this] at hid
      exact absurd hid (lt_irrefl _)
  · intro e' s now'
    exact verify_otp_otps_length db e' s now'

/-- C2 witness: the amended deletion behaviour at a concrete state with
one consumed and one unconsumed record. -/
theorem C2_delete_on_issue_witness :
    (∀ r ∈ (store_otp db0 "a@x.com" "111111" 0 10).1.otps,
        r.id < (store_otp db0 "a@x.com" "111111" 0 10).1.nextOtpId) ∧
    (store_otp db0 "a@x.com" "111111" 0 10).2
      ∉ (store_otp (store_otp db0 "a@x.com" "111111" 0 10).1
          "a@x.com" "222222" 0 10).1.otps :=
  ⟨by decide,
   (C2_delete_on_issue (store_otp db0 "a@x.com" "111111" 0 10).1
      "a@x.com" "222222" 0 10 (by decide)).2.2.1
     (store_otp db0 "a@x.com" "111111" 0 10).2 (by decide) (by decide)⟩

/-- C8 (deterministic part): `generate_otp` produces a string of exactly
`length` characters, each drawn from the digit alphabet, whatever index
stream the underlying random source yields.  (The claimed strength of the
randomness source itself is refuted by the source text: `random.choices`
is the seedable Python Mersenne-Twister PRNG, not a cryptographically
strong source.) -/
theorem C8_generate_otp_format (pick : Nat → Nat) (n : Nat) :
    (generate_otp pick n).length = n ∧
    ∀ ch ∈ (generate_otp pick n).toList, ch.isDigit = true := by
  constructor
  · simp [generate_otp, String.length]
  · intro ch hch
    have hch' : ch ∈ (List.range n).map
        (fun i => digitAlphabet.getD (pick i % digitAlphabet.length) '0') := hch
    obtain ⟨i, _, hi⟩ := List.mem_map.mp hch'
    subst hi
    have hidx : pick i % digitAlphabet.length < digitAlphabet.length :=
      Nat.mod_lt _ (by decide)
    have hmem : digitAlphabet.getD (pick i % digitAlphabet.length) '0'
        ∈ digitAlphabet := by
      rw [List.getD_eq_getElem _ _ hidx]
      exact List.getElem_mem hidx
    have hall : ∀ c ∈ digitAlphabet, c.isDigit = true := by decide
    exact hall _ hmem

/-- C9: when delivery fails after the new OTP record has been stored
(for example missing SMTP credentials, so `send_otp_email` returns
`False` and the endpoint reports an error), the ledger mutation is not
rolled back: the final state of the endpoint is exactly the post-`store_otp`
state, and the freshly stored record is the single active code for the
normalized email. -/
theorem C9_no_rollback_on_delivery_failure (db : DB) (em c : String)
    (now : Nat) (ck dk : Bool)
    (hfail : (send_otp db em c now ck dk).2 = false) :
    (send_otp db em c now ck dk).1 =
      (store_otp (get_user_or_create db em.toLower.trim now).1
        em.toLower.trim c now 10).1 ∧
    (send_otp db em c now ck dk).1.otps.filter (activeFilter em.toLower.trim)
      = [(store_otp (get_user_or_create db em.toLower.trim now).1
            em.toLower.trim c now 10).2] := by
  have h1 : (send_otp db em c now ck dk).1 =
      (store_otp (get_user_or_create db em.toLower.trim now).1
        em.toLower.trim c now 10).1 := by
    unfold send_otp send_otp_email
    cases ck <;> simp
  exact ⟨h1, by rw [h1, store_otp_active]⟩

/-- C9 witness: missing SMTP credentials at a concrete input — the send
fails but the stored record is the active code. -/
theorem C9_no_rollback_witness :
    (send_otp db0 "A@x.com " "123456" 0 false true).2 = false ∧
    (send_otp db0 "A@x.com " "123456" 0 false true).1.otps.filter
        (activeFilter ("A@x.com ".toLower.trim))
      = [(store_otp (get_user_or_create db0 ("A@x.com ".toLower.trim) 0).1
            ("A@x.com ".toLower.trim) "123456" 0 10).2] :=
  ⟨by decide,
   (C9_no_rollback_on_delivery_failure db0 "A@x.com " "123456" 0 false true
      (by decide)).2⟩

/-- C10: for every non-Accepted outcome of `verify_otp` the state is
unchanged — in particular the write in the Expired branch sets the
`verified` flag of the selected record to `false`, which it already was (the record was
selected by the `verified == False` filter), so the commit is a no-op and
an expired record stays unconsumed in storage.  The hypothesis is the
primary-key invariant: stored OTP ids are pairwise distinct. -/
theorem C10_non_accepted_frame (db : DB) (e s : String) (now : Nat)
    (hids : (db.otps.map (fun r => r.id)).Nodup)
    (hout : outcomeOf (verify_otp db e s now).2 ≠ VerificationOutcome.Accepted) :
    (verify_otp db e s now).1 = db := by
  cases hp : pickLatest (db.otps.filter (activeFilter e)) with
  | none => rw [verify_otp_none hp]
  | some r =>
    have hrf := pickLatest_mem hp
    have hrmem : r ∈ db.otps := (List.mem_filter.mp hrf).1
    have hract := (List.mem_filter.mp hrf).2
    have hrver : r.verified = false := by
      simp [activeFilter] at hract
      exact hract.2
    by_cases hexp : now > r.expiresAt
    · rw [verify_otp_expired hp hexp]
      show set_otp_verified db r.id false = db
      have hmap : db.otps.map
          (fun x => if x.id == r.id then { x with verified := false } else x)
          = db.otps := by
        have hpt : ∀ x ∈ db.otps,
            (if x.id == r.id then { x with verified := false } else x) = x := by
          intro x hx
          by_cases hid : (x.id == r.id) = true
          · have hxr : x = r :=
              List.inj_on_of_nodup_map hids hx hrmem (by simpa using hid)
            subst hxr
            rw [if_pos hid, ← hrver]
          · rw [if_neg (by simp [hid])]
        calc db.otps.map
              (fun x => if x.id == r.id then { x with verified := false } else x)
            = db.otps.map id := List.map_congr_left hpt
          _ = db.otps := List.map_id db.otps
      unfold set_otp_verified
      rw [hmap]
    · by_cases heq : r.otp = s
      · rw [verify_otp_accepted_eq hp hexp heq] at hout
        exact absurd rfl hout
      · rw [verify_otp_mismatch hp hexp heq]

/-- C10 witness: a concrete expired lookup leaves the state unchanged. -/
theorem C10_non_accepted_frame_witness :
    ((store_otp db0 "a@x.com" "123456" 0 10).1.otps.map
        (fun r => r.id)).Nodup ∧
    outcomeOf (verify_otp (store_otp db0 "a@x.com" "123456" 0 10).1
        "a@x.com" "123456" 700).2 ≠ VerificationOutcome.Accepted ∧
    (verify_otp (store_otp db0 "a@x.com" "123456" 0 10).1
        "a@x.com" "123456" 700).1
      = (store_otp db0 "a@x.com" "123456" 0 10).1 :=
  ⟨by decide, by decide,
   C10_non_accepted_frame (store_otp db0 "a@x.com" "123456" 0 10).1
     "a@x.com" "123456" 700 (by decide) (by decide)⟩

/-- C5: on any state satisfying the ≤1-active-record invariant, if
`verify_otp` returns Accepted then a second `verify_otp` with the same
code (and no intervening issue) returns NoActiveCode — the consumed
record is excluded by the `verified == False` filter and no other active
record for the email can exist. -/
theorem C5_one_time_use (db : DB) (e c : String) (now now2 : Nat)
    (hlen : (db.otps.filter (activeFilter e)).length ≤ 1)
    (hAcc : outcomeOf (verify_otp db e c now).2 = VerificationOutcome.Accepted) :
    outcomeOf (verify_otp (verify_otp db e c now).1 e c now2).2 =
      VerificationOutcome.NoActiveCode := by
  have hb : (verify_otp db e c now).2.1 = true := outcomeOf_accepted hAcc
  obtain ⟨r, hp, hexp, heq⟩ := verify_otp_accepted_inv hb
  have hrfilter : r ∈ db.otps.filter (activeFilter e) := pickLatest_mem hp
  have hotps := verify_otp_accepted_otps hp hexp heq
  have hfilter : (verify_otp db e c now).1.otps.filter (activeFilter e)
      = [] := by
    rw [hotps, List.filter_eq_nil_iff]
    intro a ha
    obtain ⟨x, hx, hfx⟩ := List.mem_map.mp ha
    by_cases hid : (x.id == r.id) = true
    · rw [if_pos hid] at hfx
      subst hfx
      simp [activeFilter]
    · rw [if_neg (by simp [hid])] at hfx
      subst hfx
      intro hact
      have hxf : x ∈ db.otps.filter (activeFilter e) :=
        List.mem_filter.mpr ⟨hx, hact⟩
      have hxr : x = r := mem_of_length_le_one hlen hxf hrfilter
      subst hxr
      simp at hid
  have hnone : pickLatest
      ((verify_otp db e c now).1.otps.filter (activeFilter e)) = none := by
    rw [hfilter]
    rfl
  rw [verify_otp_none hnone]
  rfl

/-- C5 witness: issue, accept, then retry the same code — it is rejected
with NoActiveCode. -/
theorem C5_one_time_use_witness :
    ((store_otp db0 "a@x.com" "123456" 0 10).1.otps.filter
        (activeFilter "a@x.com")).length ≤ 1 ∧
    outcomeOf (verify_otp (store_otp db0 "a@x.com" "123456" 0 10).1
        "a@x.com" "123456" 5).2 = VerificationOutcome.Accepted ∧
    outcomeOf (verify_otp
        (verify_otp (store_otp db0 "a@x.com" "123456" 0 10).1
          "a@x.com" "123456" 5).1
        "a@x.com" "123456" 6).2 = VerificationOutcome.NoActiveCode :=
  ⟨by decide, by decide,
   C5_one_time_use (store_otp db0 "a@x.com" "123456" 0 10).1
     "a@x.com" "123456" 5 6 (by decide) (by decide)⟩

/-- C1: `verify_otp` follows exactly the short-circuiting order of §4.2.
Writing `sel` for the selected record (the unconsumed record for the
email with the greatest `created_at`): if no such record exists the
outcome is NoActiveCode; else if `now` is strictly past its `expires_at`
the outcome is Expired; else if its code differs from the submitted
string the outcome is Mismatch, the state is unchanged, and a subsequent
verify with the correct code before expiry returns Accepted; otherwise
the record is marked consumed, the verified flag of the user is set
(creating the user row if absent), and the outcome is Accepted. -/
theorem C1_verify_order (db : DB) (e s : String) (now : Nat) :
    (pickLatest (db.otps.filter (activeFilter e)) = none →
      outcomeOf (verify_otp db e s now).2 = VerificationOutcome.NoActiveCode) ∧
    (∀ r, pickLatest (db.otps.filter (activeFilter e)) = some r →
      (r ∈ db.otps ∧ r.email = e ∧ r.verified = false ∧
        ∀ x ∈ db.otps, activeFilter e x = true →
          x.createdAt ≤ r.createdAt) ∧
      (now > r.expiresAt →
        outcomeOf (verify_otp db e s now).2 = VerificationOutcome.Expired) ∧
      (¬ now > r.expiresAt → r.otp ≠ s →
        outcomeOf (verify_otp db e s now).2 = VerificationOutcome.Mismatch ∧
        (verify_otp db e s now).1 = db ∧
        (∀ now2, ¬ now2 > r.expiresAt →
          outcomeOf (verify_otp (verify_otp db e s now).1 e r.otp now2).2 =
            VerificationOutcome.Accepted)) ∧
      (¬ now > r.expiresAt → r.otp = s →
        outcomeOf (verify_otp db e s now).2 = VerificationOutcome.Accepted ∧
        (∀ x ∈ (verify_otp db e s now).1.otps,
          x.id = r.id → x.verified = true) ∧
        is_user_verified (verify_otp db e s now).1 e = true)) := by
  constructor
  · intro hp
    rw [verify_otp_none hp]
    rfl
  · intro r hp
    have hrf := pickLatest_mem hp
    have hrmem : r ∈ db.otps := (List.mem_filter.mp hrf).1
    have hract := (List.mem_filter.mp hrf).2
    have hremail : r.email = e := by
      simp [activeFilter] at hract
      exact hract.1
    have hrver : r.verified = false := by
      simp [activeFilter] at hract
      exact hract.2
    refine ⟨⟨hrmem, hremail, hrver, ?_⟩, ?_, ?_, ?_⟩
    · intro x hx hxact
      exact pickLatest_max hp x (List.mem_filter.mpr ⟨hx, hxact⟩)
    · intro hexp
      rw [verify_otp_expired hp hexp]
      rfl
    · intro hexp hne
      have hmm := verify_otp_mismatch hp hexp hne
      refine ⟨by rw [hmm]; rfl, by rw [hmm], ?_⟩
      intro now2 hexp2
      have hdb : (verify_otp db e s now).1 = db := by rw [hmm]
      rw [hdb, verify_otp_accepted_eq hp hexp2 rfl]
      rfl
    · intro hexp heq
      refine ⟨by rw [verify_otp_accepted_eq hp hexp heq]; rfl, ?_, ?_⟩
      · intro x hx hid
        rw [verify_otp_accepted_otps hp hexp heq] at hx
        obtain ⟨y, hy, hfy⟩ := List.mem_map.mp hx
        by_cases hyid : (y.id == r.id) = true
        · rw [if_pos hyid] at hfy
          subst hfy
          rfl
        · rw [if_neg (by simp [hyid])] at hfy
          subst hfy
          exact absurd hid (by simpa using hyid)
      · exact verify_otp_verified_self hp hexp heq

/-- C1 witness: the characterization applied to a concrete single-record
state through its Accepted branch. -/
theorem C1_verify_order_witness :
    outcomeOf (verify_otp (store_otp db0 "a@x.com" "123456" 0 10).1
        "a@x.com" "123456" 5).2 = VerificationOutcome.Accepted ∧
    is_user_verified (verify_otp (store_otp db0 "a@x.com" "123456" 0 10).1
        "a@x.com" "123456" 5).1 "a@x.com" = true := by
  have h := (C1_verify_order (store_otp db0 "a@x.com" "123456" 0 10).1
      "a@x.com" "123456" 5).2
      (store_otp db0 "a@x.com" "123456" 0 10).2 (by decide)
  have hacc := h.2.2.2 (by decide) (by decide)
  exact ⟨hacc.1, hacc.2.2⟩

theorem outcomeOf_of_true {res : Bool × String} (h : res.1 = true) :
    outcomeOf res = VerificationOutcome.Accepted := by
  obtain ⟨b, s⟩ := res
  cases b
  · simp at h
  · rfl

theorem applyOp_verified_mono (db : DB) (op : Op) (e : String)
    (h : is_user_verified db e = true) :
    is_user_verified (applyOp db op) e = true := by
  cases op with
  | issue e' c now m =>
    show is_user_verified (store_otp db e' c now m).1 e = true
    rw [is_user_verified_congr (store_otp_users db e' c now m) e]
    exact h
  | verify e' c now =>
    show is_user_verified (verify_otp db e' c now).1 e = true
    by_cases hb : (verify_otp db e' c now).2.1 = true
    · obtain ⟨r, hp, hexp, heq⟩ := verify_otp_accepted_inv hb
      by_cases hee : e = e'
      · subst hee
        exact verify_otp_verified_self hp hexp heq
      · rw [verify_otp_verified_other hee]
        exact h
    · have hb' : (verify_otp db e' c now).2.1 = false := by
        revert hb
        cases (verify_otp db e' c now).2.1 <;> simp
      rw [is_user_verified_congr (verify_otp_users_of_not_accepted hb') e]
      exact h

/-- C7: the verified flag of a user is monotonic.  Over any trace of issue
and verify operations a true flag stays true; a single operation changes
the flag at `e` only if it is a verify for `e` whose outcome is Accepted
(so the flag is still false before any Accepted outcome); and an
Accepted verify sets the flag to true. -/
theorem C7_verified_monotone (db : DB) (e : String) :
    (∀ ops : List Op, is_user_verified db e = true →
      is_user_verified (ops.foldl applyOp db) e = true) ∧
    (∀ op : Op, is_user_verified (applyOp db op) e ≠ is_user_verified db e →
      ∃ c now, op = Op.verify e c now ∧
        outcomeOf (verify_otp db e c now).2 = VerificationOutcome.Accepted) ∧
    (∀ c now,
      outcomeOf (verify_otp db e c now).2 = VerificationOutcome.Accepted →
        is_user_verified (verify_otp db e c now).1 e = true) := by
  refine ⟨?_, ?_, ?_⟩
  · intro ops
    induction ops generalizing db with
    | nil => intro h; exact h
    | cons op t ih =>
      intro h
      exact ih (applyOp db op) (applyOp_verified_mono db op e h)
  · intro op hch
    cases op with
    | issue e' c now m =>
      exfalso
      apply hch
      show is_user_verified (store_otp db e' c now m).1 e = _
      exact is_user_verified_congr (store_otp_users db e' c now m) e
    | verify e' c now =>
      by_cases hb : (verify_otp db e' c now).2.1 = true
      · by_cases hee : e = e'
        · subst hee
          exact ⟨c, now, rfl, outcomeOf_of_true hb⟩
        · exfalso
          apply hch
          show is_user_verified (verify_otp db e' c now).1 e = _
          exact verify_otp_verified_other hee
      · exfalso
        apply hch
        have hb' : (verify_otp db e' c now).2.1 = false := by
          revert hb
          cases (verify_otp db e' c now).2.1 <;> simp
        show is_user_verified (verify_otp db e' c now).1 e = _
        exact is_user_verified_congr (verify_otp_users_of_not_accepted hb') e
  · intro c now hAcc
    have hb : (verify_otp db e c now).2.1 = true := outcomeOf_accepted hAcc
    obtain ⟨r, hp, hexp, heq⟩ := verify_otp_accepted_inv hb
    exact verify_otp_verified_self hp hexp heq

/-- C7 witness: after a concrete Accepted verification the flag is true
and stays true across a further issuance and a failed verification. -/
theorem C7_verified_monotone_witness :
    outcomeOf (verify_otp (store_otp db0 "a@x.com" "123456" 0 10).1
        "a@x.com" "123456" 5).2 = VerificationOutcome.Accepted ∧
    is_user_verified
      ([Op.issue "a@x.com" "999999" 7 10, Op.verify "a@x.com" "000000" 8].foldl
        applyOp
        (verify_otp (store_otp db0 "a@x.com" "123456" 0 10).1
          "a@x.com" "123456" 5).1) "a@x.com" = true := by
  constructor
  · decide
  · apply (C7_verified_monotone _ "a@x.com").1
    exact (C7_verified_monotone (store_otp db0 "a@x.com" "123456" 0 10).1
      "a@x.com").2.2 "123456" 5 (by decide)
